import Mathlib

set_option maxRecDepth 100000

/-!
Verification of the recursive export engine of `whimsical-exporter`
(`src/index.ts`).  The engine walks a remote folder tree, classifies each
child item (folder / document / empty document), exports documents in the
requested formats and counts exported documents.

The shallow embedding below translates the functions of `src/index.ts`
into pure Lean functions.  Remote behaviour (the puppeteer `page`, the
rendered DOM, network responses) is abstracted into an oracle `Remote`
that answers exactly the questions the code asks of the page; the
filesystem reads (`readdir`) are part of that oracle (the code reads the
directory once per `downloadUrls` call), and writes are collected in the
state.  Every remote interaction performed by the code is recorded as an
event in the state's trace, so that claims of the form "no remote
interaction happens" can be settled.
-/

/-- Export formats, from `const enum FileType` in `src/index.ts`. -/
inductive FileType where
  | pdf
  | png
  | svg
deriving DecidableEq, Repr

/-- The string value of each `FileType` enum member. -/
def FileType.ext : FileType → String
  | .pdf => "pdf"
  | .png => "png"
  | .svg => "svg"

/-- `const WHIMSICAL_BASE_URL = 'https://whimsical.com/'`. -/
def WHIMSICAL_BASE_URL : String := "https://whimsical.com/"

/-- JavaScript `String.prototype.startsWith(pre)`. -/
def strStartsWith (s pre : String) : Bool :=
  pre.data.isPrefixOf s.data

/-- Scanner for JavaScript `String.prototype.split` with a non-empty
string separator: walk the characters left to right, breaking at each
non-overlapping occurrence of the separator.  The `fuel` argument (the
input length suffices) only makes the recursion structural so that the
kernel can evaluate it; it never runs out for a non-empty separator. -/
def jsSplitGo (sep : List Char) : Nat → List Char → List Char → List (List Char)
  | _, [], acc => [acc.reverse]
  | 0, l, acc => [acc.reverse ++ l]
  | fuel + 1, c :: rest, acc =>
    if sep.isPrefixOf (c :: rest) then
      acc.reverse :: jsSplitGo sep fuel ((c :: rest).drop sep.length) []
    else
      jsSplitGo sep fuel rest (c :: acc)

/-- JavaScript `url.split(sep)` for a non-empty string separator (the
only use in the source splits on the base URL). -/
def jsSplit (s sep : String) : List String :=
  (jsSplitGo sep.data s.data.length s.data []).map String.mk

/-- `getItemName` from `src/index.ts`:
`const [, path] = url.split(WHIMSICAL_BASE_URL); return path;`.
JavaScript `split` with a non-empty string separator splits on each
non-overlapping occurrence from the left; destructuring index 1 yields
`undefined` (here `none`) when the separator does not occur in `url`.
The function performs no validity check and never throws. -/
def getItemName (url : String) : Option String :=
  (jsSplit url WHIMSICAL_BASE_URL)[1]?

/-- JavaScript string coercion used by the template literals in
`src/index.ts`: interpolating `undefined` produces the text "undefined". -/
def nameStr : Option String → String
  | some s => s
  | none => "undefined"

/-- `dirFiles.includes(itemName)` where `itemName` may be `undefined`:
`Array.prototype.includes` compares with SameValueZero, so an
`undefined` name is only found if the array holds `undefined`, which a
`readdir` result never does. -/
def dirIncludesName (dirFiles : List String) : Option String → Bool
  | some n => dirFiles.contains n
  | none => false

/-- Remote interactions performed by the engine, in program order:
`navigate` is a real `page.goto` issued by `goToUrlIfNeeded`;
`loadItems` stands for the scroll/collect phase (`loadAllItems` plus
`getUrls`) on a folder page; `probeFolder` is the
`page.$('[data-wc="folder-content"]')` query of `checkItemIsFolder`;
`probeCanvas` is the `page.$('[data-wc="board-canvas"]')` query of
`checkItemHasCanvas`; `exportAttempt` is one `getItemContent`
invocation for one format. -/
inductive Ev where
  | navigate (url : String)
  | loadItems (url : String)
  | probeFolder (url : String)
  | probeCanvas (url : String)
  | exportAttempt (url : String) (ft : FileType)
deriving DecidableEq, Repr

/-- One `writeFile` call of `downloadUrls`: the path written is
`dir ++ "/" ++ name ++ "." ++ ft.ext` (the template literal
`${downloadPath}/${itemName}.${fileType}`). -/
structure FileWrite where
  dir : String
  name : String
  ft : FileType
  content : String
deriving DecidableEq, Repr

/-- The file path a `FileWrite` targets. -/
def FileWrite.path (w : FileWrite) : String :=
  w.dir ++ "/" ++ w.name ++ "." ++ w.ft.ext

/-- Engine state: the module-level counter `itemsDownloaded`, the files
written so far, the trace of remote interactions, and the page's current
URL (for `goToUrlIfNeeded`'s `page.url() !== url` test; `none` before
any navigation of interest). -/
structure St where
  itemsDownloaded : Nat
  written : List FileWrite
  events : List Ev
  currentUrl : Option String
deriving DecidableEq, Repr

/-- The oracle for the remote service and the pre-existing filesystem:
`isFolder u` is whether the folder-content marker is present on page `u`;
`hasCanvas u` whether the board-canvas marker is present; `children u`
the hrefs `getUrls` collects after `loadAllItems`; `content u ft` the
bytes `getItemContent` produces for format `ft` (`none` models any
exception thrown inside the exporter: selector not found, disabled
control, bad network response); `readdir p` the directory listing
`readdir(downloadPath)` returns. -/
structure Remote where
  isFolder : String → Bool
  hasCanvas : String → Bool
  children : String → List String
  content : String → FileType → Option String
  readdir : String → List String

/-- Append one remote-interaction event to the trace. -/
def addEvent (e : Ev) (s : St) : St :=
  { s with events := s.events ++ [e] }

/-- `goToUrlIfNeeded` from `src/index.ts`: navigate only when the page
is not already at `url`. -/
def goToUrlIfNeeded (url : String) (s : St) : St :=
  if s.currentUrl = some url then s
  else { addEvent (Ev.navigate url) s with currentUrl := some url }

/-- `checkItemIsFolder`: `goToUrlIfNeeded` then query the
folder-content marker. -/
def checkItemIsFolder (R : Remote) (itemUrl : String) (s : St) : Bool × St :=
  (R.isFolder itemUrl, addEvent (Ev.probeFolder itemUrl) (goToUrlIfNeeded itemUrl s))

/-- `checkItemHasCanvas`: `goToUrlIfNeeded` then query the board-canvas
marker. -/
def checkItemHasCanvas (R : Remote) (itemUrl : String) (s : St) : Bool × St :=
  (R.hasCanvas itemUrl, addEvent (Ev.probeCanvas itemUrl) (goToUrlIfNeeded itemUrl s))

/-- `getItemContent` dispatches to `getSvgContent` (which navigates to
`itemUrl ++ "/svg"`), `getImageBlob` or `getPdfStream` (which navigate
to `itemUrl`).  The oracle answers with the produced bytes or `none`
for a thrown exception; the invocation is recorded as an
`exportAttempt` event. -/
def getItemContent (R : Remote) (itemUrl : String) (ft : FileType) (s : St) :
    Option String × St :=
  let target := match ft with
    | .svg => itemUrl ++ "/svg"
    | _ => itemUrl
  (R.content itemUrl ft, addEvent (Ev.exportAttempt itemUrl ft) (goToUrlIfNeeded target s))

/-- `pendingFileTypes` from `downloadUrls` (lines 221–228): keep only
the requested formats whose target file `itemName.fileType` is not
already in the directory listing. -/
def pendingFileTypes (fileTypes : List FileType) (dirFiles : List String)
    (itemName : Option String) : List FileType :=
  fileTypes.filter (fun ft => !(dirFiles.contains (nameStr itemName ++ "." ++ ft.ext)))

/-- The body of the `try` block of `downloadUrls` (lines 241–248): for
each pending format in order, fetch the content and write the file.
The returned flag is `true` when every format succeeded (so that
`itemsDownloaded++` runs); a `none` content models the thrown exception
that transfers control to the `catch`, abandoning the remaining
formats. -/
def exportFiles (R : Remote) (itemUrl dir name : String) :
    List FileType → St → St × Bool
  | [], s => (s, true)
  | ft :: fts, s =>
    let c := getItemContent R itemUrl ft s
    match c.1 with
    | none => (c.2, false)
    | some content =>
      exportFiles R itemUrl dir name fts
        { c.2 with written := c.2.written ++ [⟨dir, name, ft, content⟩] }

/-- One iteration of the `for await (const itemUrl of itemUrls)` loop of
`downloadUrls` (lines 209–253), parametric in the recursive call
`recurse itemUrl s` standing for
`navigateToFolder(page, itemUrl, downloadPath, fileTypes)`:

* if `dirFiles.includes(itemName)` — note the `||` short-circuit — or
  the remote folder probe answers positively, recurse as a folder;
* otherwise compute the pending formats, `continue` if none;
* otherwise probe for a canvas, `continue` if absent (empty document);
* otherwise run the export loop and increment `itemsDownloaded` only
  when every pending format succeeded (the `catch` skips the
  increment). -/
def processItemGo (recurse : String → St → St) (R : Remote) (itemUrl : String)
    (dirFiles : List String) (downloadPath : String) (fileTypes : List FileType)
    (s : St) : St :=
  let itemName := getItemName itemUrl
  if dirIncludesName dirFiles itemName then
    recurse itemUrl s
  else
    let p := checkItemIsFolder R itemUrl s
    if p.1 then
      recurse itemUrl p.2
    else
      let pending := pendingFileTypes fileTypes dirFiles itemName
      if pending = [] then
        p.2
      else
        let q := checkItemHasCanvas R itemUrl p.2
        if q.1 then
          let r := exportFiles R itemUrl downloadPath (nameStr itemName) pending q.2
          if r.2 then { r.1 with itemsDownloaded := r.1.itemsDownloaded + 1 }
          else r.1
        else
          q.2

/-- `navigateToFolder` from `src/index.ts` (lines 131–151): compute the
folder's local path, navigate if needed, lazily load all items
(`loadAllItems` + `getUrls`, recorded as one `loadItems` event; the
children the collection returns are the oracle's `children`), create
the directory (local, not an event), then run `downloadUrls` over the
children with the `readdir` snapshot taken at entry.  The `fuel`
argument bounds the recursion depth of the embedding; the real program
has no such bound (it would recurse forever on a cyclic listing), and
every theorem below holds for every fuel value. -/
def navigateToFolder (R : Remote) : Nat → String → String → List FileType → St → St
  | 0, _, _, _, s => s
  | fuel + 1, folderUrl, downloadPath, fileTypes, s =>
    let folderPath := downloadPath ++ "/" ++ nameStr (getItemName folderUrl)
    let s2 := addEvent (Ev.loadItems folderUrl) (goToUrlIfNeeded folderUrl s)
    (R.children folderUrl).foldl
      (fun st u =>
        processItemGo
          (fun url st2 => navigateToFolder R fuel url folderPath fileTypes st2)
          R u (R.readdir folderPath) folderPath fileTypes st)
      s2

/-- One loop iteration of `downloadUrls` with the recursion tied to
`navigateToFolder` at the given fuel. -/
def processItem (R : Remote) (fuel : Nat) (itemUrl : String)
    (dirFiles : List String) (downloadPath : String) (fileTypes : List FileType)
    (s : St) : St :=
  processItemGo
    (fun url st => navigateToFolder R fuel url downloadPath fileTypes st)
    R itemUrl dirFiles downloadPath fileTypes s

/-- `downloadUrls` (lines 201–254): fold the loop body over the item
list.  (`dirFiles` is read once, before the loop, exactly as in the
source.) -/
def downloadUrls (R : Remote) (fuel : Nat) (itemUrls : List String)
    (dirFiles : List String) (downloadPath : String) (fileTypes : List FileType)
    (s : St) : St :=
  itemUrls.foldl
    (fun st u => processItem R fuel u dirFiles downloadPath fileTypes st) s

/-- `loadAllItems` (lines 153–175) together with the subsequent
`getUrls` collection: the oracle presents the remote pages as a list of
`batches` each appended to the rendered listing `dom` by one successful
`items.sync` response; every loop iteration performs one
scroll-to-bottom plus one `waitForResponse` (counted in the second
component), and the loop exits on the first iteration whose wait times
out — i.e. after the batches are exhausted.  The first component is the
final listing `getUrls` collects, in DOM order. -/
def loadAllItemsLoop : List (List String) → List String → Nat → List String × Nat
  | [], dom, cycles => (dom, cycles + 1)
  | batch :: rest, dom, cycles => loadAllItemsLoop rest (dom ++ batch) (cycles + 1)

/-- A network response as observed by the `page.on('response', ...)`
listener of `clickAndWaitForImageBlob`. -/
structure HttpResponse where
  url : String
  ok : Bool
  buffer : String
deriving DecidableEq, Repr

/-- The listener's filter: `response.url().startsWith('blob:' +
WHIMSICAL_BASE_URL)`. -/
def isBlobResponse (r : HttpResponse) : Bool :=
  strStartsWith r.url ("blob:" ++ WHIMSICAL_BASE_URL)

/-- The first response the single-shot listener reacts to: responses
that do not match the blob predicate leave the listener installed. -/
def firstBlob : List HttpResponse → Option HttpResponse
  | [] => none
  | r :: rs => if isBlobResponse r then some r else firstBlob rs

/-- Outcome of the promise created by `clickAndWaitForImageBlob`:
`pending` means the promise never settles. -/
inductive Settled where
  | pending
  | resolved (buffer : String)
  | rejected
deriving DecidableEq, Repr

/-- `clickAndWaitForImageBlob` (lines 319–340): install a response
listener, then `clickIfEnabled` the element.  `clickOk` is whether that
click succeeds (`false` models the element being disabled or not
clickable, whose rejection removes the listeners and rejects the
promise); `responses` are the responses the page emits after a
successful click.  The handler fires on the first blob-URL response,
removes the listeners, and resolves with the bytes when `response.ok()`
and rejects otherwise.  When the click succeeds but no blob response
ever arrives, nothing settles the promise and nothing removes the
listener — there is no timeout in this function.  The second component
records whether `removeAllListeners` ran. -/
def clickAndWaitForImageBlob (clickOk : Bool) (responses : List HttpResponse) :
    Settled × Bool :=
  if clickOk then
    match firstBlob responses with
    | some r => if r.ok then (.resolved r.buffer, true) else (.rejected, true)
    | none => (.pending, false)
  else (.rejected, true)

/-- UI clicks performed by `getImageBlob`: the share/export control
button and the copy-image menu entry. -/
inductive UIEv where
  | clickShare
  | clickCopy
deriving DecidableEq, Repr

/-- `getImageBlob` (lines 300–317): open the share control
(`clickIfEnabled`, which throws without clicking when the control is
disabled), run `clickAndWaitForImageBlob` on the copy-image entry
(`copyEnabled` is whether that inner click succeeds, in which case the
copy entry was clicked), then — only reached when the awaited promise
resolved — close the share control with a second `clickIfEnabled`.  A
rejection of the awaited promise propagates as an exception before the
closing click; a pending promise suspends the function forever.  The
second component is the list of UI clicks performed. -/
def getImageBlob (shareEnabled copyEnabled : Bool)
    (responses : List HttpResponse) : Settled × List UIEv :=
  if shareEnabled then
    let copyEvs := if copyEnabled then [UIEv.clickCopy] else []
    match (clickAndWaitForImageBlob copyEnabled responses).1 with
    | .resolved buf => (.resolved buf, [UIEv.clickShare] ++ copyEvs ++ [UIEv.clickShare])
    | .rejected => (.rejected, [UIEv.clickShare] ++ copyEvs)
    | .pending => (.pending, [UIEv.clickShare] ++ copyEvs)
  else (.rejected, [])

/-- Initial engine state: counter 0, nothing written, empty trace, no
current location. -/
def s0 : St := { itemsDownloaded := 0, written := [], events := [], currentUrl := none }

/-- A remote holding a single document that renders a canvas, whose SVG
export succeeds and whose PNG and PDF exports fail. -/
def R1 : Remote where
  isFolder := fun _ => false
  hasCanvas := fun _ => true
  children := fun _ => []
  content := fun _ ft => match ft with | .svg => some "SVG" | _ => none
  readdir := fun _ => []

/-- The single document of `R1`. -/
def urlD : String := WHIMSICAL_BASE_URL ++ "doc-d"

/-- A remote whose items are all documents with a canvas and whose
exports all succeed. -/
def R2 : Remote where
  isFolder := fun _ => false
  hasCanvas := fun _ => true
  children := fun _ => []
  content := fun _ ft => some ("BYTES-" ++ ft.ext)
  readdir := fun _ => []

/-- A remote like `R2` except that the SVG export of `urlD` fails;
every other export (including the PNG export of `urlD`) would
succeed. -/
def R3 : Remote where
  isFolder := fun _ => false
  hasCanvas := fun _ => true
  children := fun _ => []
  content := fun u ft =>
    if u = WHIMSICAL_BASE_URL ++ "doc-d" ∧ ft = FileType.svg then none
    else some ("BYTES-" ++ ft.ext)
  readdir := fun _ => []

/-- A second item URL, a sibling of `urlD`. -/
def urlE : String := WHIMSICAL_BASE_URL ++ "doc-e"

/-- A remote whose items are all empty documents (no canvas). -/
def R4 : Remote where
  isFolder := fun _ => false
  hasCanvas := fun _ => false
  children := fun _ => []
  content := fun _ _ => some "BYTES"
  readdir := fun _ => []

/-! ### Basic lemmas about the state operations -/

theorem addEvent_itemsDownloaded (e : Ev) (s : St) :
    (addEvent e s).itemsDownloaded = s.itemsDownloaded := rfl

theorem addEvent_written (e : Ev) (s : St) :
    (addEvent e s).written = s.written := rfl

theorem mem_addEvent_events (a e : Ev) (s : St) :
    a ∈ (addEvent e s).events ↔ a ∈ s.events ∨ a = e := by
  simp [addEvent]

theorem goToUrlIfNeeded_itemsDownloaded (url : String) (s : St) :
    (goToUrlIfNeeded url s).itemsDownloaded = s.itemsDownloaded := by
  unfold goToUrlIfNeeded; split <;> rfl

theorem goToUrlIfNeeded_written (url : String) (s : St) :
    (goToUrlIfNeeded url s).written = s.written := by
  unfold goToUrlIfNeeded; split <;> rfl

theorem mem_goToUrlIfNeeded_events (a : Ev) (url : String) (s : St) :
    a ∈ (goToUrlIfNeeded url s).events → a ∈ s.events ∨ a = Ev.navigate url := by
  unfold goToUrlIfNeeded; split
  · exact fun h => Or.inl h
  · simp [addEvent]

theorem checkItemIsFolder_fst (R : Remote) (u : String) (s : St) :
    (checkItemIsFolder R u s).1 = R.isFolder u := rfl

theorem checkItemIsFolder_itemsDownloaded (R : Remote) (u : String) (s : St) :
    (checkItemIsFolder R u s).2.itemsDownloaded = s.itemsDownloaded := by
  simp [checkItemIsFolder, addEvent_itemsDownloaded, goToUrlIfNeeded_itemsDownloaded]

theorem checkItemIsFolder_written (R : Remote) (u : String) (s : St) :
    (checkItemIsFolder R u s).2.written = s.written := by
  simp [checkItemIsFolder, addEvent_written, goToUrlIfNeeded_written]

theorem mem_checkItemIsFolder_events (a : Ev) (R : Remote) (u : String) (s : St) :
    a ∈ (checkItemIsFolder R u s).2.events →
      a ∈ s.events ∨ a = Ev.navigate u ∨ a = Ev.probeFolder u := by
  intro h
  rcases (mem_addEvent_events _ _ _).mp h with h1 | h1
  · rcases mem_goToUrlIfNeeded_events _ _ _ h1 with h2 | h2
    · exact Or.inl h2
    · exact Or.inr (Or.inl h2)
  · exact Or.inr (Or.inr h1)

theorem checkItemHasCanvas_fst (R : Remote) (u : String) (s : St) :
    (checkItemHasCanvas R u s).1 = R.hasCanvas u := rfl

theorem checkItemHasCanvas_itemsDownloaded (R : Remote) (u : String) (s : St) :
    (checkItemHasCanvas R u s).2.itemsDownloaded = s.itemsDownloaded := by
  simp [checkItemHasCanvas, addEvent_itemsDownloaded, goToUrlIfNeeded_itemsDownloaded]

theorem checkItemHasCanvas_written (R : Remote) (u : String) (s : St) :
    (checkItemHasCanvas R u s).2.written = s.written := by
  simp [checkItemHasCanvas, addEvent_written, goToUrlIfNeeded_written]

theorem mem_checkItemHasCanvas_events (a : Ev) (R : Remote) (u : String) (s : St) :
    a ∈ (checkItemHasCanvas R u s).2.events →
      a ∈ s.events ∨ a = Ev.navigate u ∨ a = Ev.probeCanvas u := by
  intro h
  rcases (mem_addEvent_events _ _ _).mp h with h1 | h1
  · rcases mem_goToUrlIfNeeded_events _ _ _ h1 with h2 | h2
    · exact Or.inl h2
    · exact Or.inr (Or.inl h2)
  · exact Or.inr (Or.inr h1)

theorem getItemContent_fst (R : Remote) (u : String) (ft : FileType) (s : St) :
    (getItemContent R u ft s).1 = R.content u ft := rfl

theorem getItemContent_itemsDownloaded (R : Remote) (u : String) (ft : FileType) (s : St) :
    (getItemContent R u ft s).2.itemsDownloaded = s.itemsDownloaded := by
  simp [getItemContent, addEvent_itemsDownloaded, goToUrlIfNeeded_itemsDownloaded]

theorem getItemContent_written (R : Remote) (u : String) (ft : FileType) (s : St) :
    (getItemContent R u ft s).2.written = s.written := by
  simp [getItemContent, addEvent_written, goToUrlIfNeeded_written]

theorem mem_getItemContent_events (a : Ev) (R : Remote) (u : String) (ft : FileType) (s : St) :
    a ∈ (getItemContent R u ft s).2.events →
      a ∈ s.events ∨ (∃ url, a = Ev.navigate url) ∨ a = Ev.exportAttempt u ft := by
  intro h
  rcases (mem_addEvent_events _ _ _).mp h with h1 | h1
  · rcases mem_goToUrlIfNeeded_events _ _ _ h1 with h2 | h2
    · exact Or.inl h2
    · exact Or.inr (Or.inl ⟨_, h2⟩)
  · exact Or.inr (Or.inr h1)

/-! ### Lemmas about the per-item export loop -/

theorem exportFiles_itemsDownloaded (R : Remote) (itemUrl dir name : String)
    (fts : List FileType) (s : St) :
    (exportFiles R itemUrl dir name fts s).1.itemsDownloaded = s.itemsDownloaded := by
  induction fts generalizing s with
  | nil => rfl
  | cons ft fts ih =>
    simp only [exportFiles, getItemContent_fst]
    rcases h : R.content itemUrl ft with _ | c
    · simp [getItemContent_itemsDownloaded]
    · simp [ih, getItemContent_itemsDownloaded]

theorem exportFiles_success (R : Remote) (itemUrl dir name : String)
    (fts : List FileType) (s : St) :
    (exportFiles R itemUrl dir name fts s).2 = true ↔
      ∀ ft ∈ fts, (R.content itemUrl ft).isSome := by
  induction fts generalizing s with
  | nil => simp [exportFiles]
  | cons ft fts ih =>
    simp only [exportFiles, getItemContent_fst]
    rcases h : R.content itemUrl ft with _ | c
    · simp [h]
    · simp [h, ih]

theorem exportFiles_written_subset (R : Remote) (itemUrl dir name : String)
    (fts : List FileType) (s : St) :
    ∀ w ∈ (exportFiles R itemUrl dir name fts s).1.written,
      w ∈ s.written ∨ (w.dir = dir ∧ w.name = name ∧ w.ft ∈ fts) := by
  induction fts generalizing s with
  | nil => exact fun w hw => Or.inl hw
  | cons ft fts ih =>
    intro w hw
    simp only [exportFiles, getItemContent_fst] at hw
    rcases h : R.content itemUrl ft with _ | c <;> simp only [h] at hw
    · have hw2 : w ∈ (getItemContent R itemUrl ft s).2.written := hw
      rw [getItemContent_written] at hw2
      exact Or.inl hw2
    · rcases ih _ w hw with h1 | h1
      · simp only [getItemContent_written, List.mem_append, List.mem_singleton] at h1
        rcases h1 with h2 | h2
        · exact Or.inl h2
        · subst h2; exact Or.inr ⟨rfl, rfl, List.mem_cons_self _ _⟩
      · exact Or.inr ⟨h1.1, h1.2.1, List.mem_cons_of_mem _ h1.2.2⟩

theorem exportFiles_events_subset (R : Remote) (itemUrl dir name : String)
    (fts : List FileType) (s : St) :
    ∀ a ∈ (exportFiles R itemUrl dir name fts s).1.events,
      a ∈ s.events ∨ (∃ url, a = Ev.navigate url) ∨
        ∃ ft ∈ fts, a = Ev.exportAttempt itemUrl ft := by
  induction fts generalizing s with
  | nil => exact fun a ha => Or.inl ha
  | cons ft fts ih =>
    intro a ha
    simp only [exportFiles, getItemContent_fst] at ha
    rcases h : R.content itemUrl ft with _ | c <;> simp only [h] at ha
    · have ha2 : a ∈ (getItemContent R itemUrl ft s).2.events := ha
      rcases mem_getItemContent_events a R itemUrl ft s ha2 with h1 | h1 | h1
      · exact Or.inl h1
      · exact Or.inr (Or.inl h1)
      · exact Or.inr (Or.inr ⟨ft, List.mem_cons_self _ _, h1⟩)
    · rcases ih _ a ha with h1 | h1 | h1
      · have h2 : a ∈ (getItemContent R itemUrl ft s).2.events := h1
        rcases mem_getItemContent_events a R itemUrl ft s h2 with h3 | h3 | h3
        · exact Or.inl h3
        · exact Or.inr (Or.inl h3)
        · exact Or.inr (Or.inr ⟨ft, List.mem_cons_self _ _, h3⟩)
      · exact Or.inr (Or.inl h1)
      · rcases h1 with ⟨g, hg, hag⟩
        exact Or.inr (Or.inr ⟨g, List.mem_cons_of_mem _ hg, hag⟩)

/-! ### Claim C4: pagination cycles and collected children -/

/-- Claim C4 is false as stated (counterexample): for a folder whose
listing requires 1 pagination round (one successful `items.sync`
response), the loop issues 2 scroll/await cycles — the successful one
plus the final cycle whose wait times out — not exactly 1. -/
theorem loadAllItems_cycles_cex :
    (loadAllItemsLoop [["a"]] [] 0).2 = 2 ∧ (loadAllItemsLoop [["a"]] [] 0).2 ≠ 1 := by
  decide

/-- Claim C4 (amended): for a listing requiring `batches.length`
pagination rounds the scroll/await loop terminates after
`batches.length + 1` cycles — one per successful sync response plus the
final timed-out cycle, which is the normal termination signal — and the
subsequent collection returns every child accumulated across the
rounds, appended to the initially rendered listing in stable order. -/
theorem loadAllItems_cycles_children (batches : List (List String))
    (dom : List String) (c : Nat) :
    loadAllItemsLoop batches dom c = (dom ++ batches.flatten, c + (batches.length + 1)) := by
  induction batches generalizing dom c with
  | nil => simp [loadAllItemsLoop]
  | cons b bs ih =>
    rw [loadAllItemsLoop, ih]
    simp [List.append_assoc]
    omega

/-! ### Claim C5: the path namer -/

/-- Claim C5 is false as stated (counterexample): the base URL itself
and the base URL duplicated are two distinct identifiers under the
service base URL (both start with it), yet `getItemName` maps both to
the same Local Name `""` — and the second is not the suffix obtained by
stripping the base URL prefix, which would be the base URL itself.
Moreover an input that is not a valid identifier yields `undefined`
(`none`): no defensive check fails fatally. -/
theorem getItemName_cex :
    getItemName WHIMSICAL_BASE_URL = some "" ∧
    getItemName (WHIMSICAL_BASE_URL ++ WHIMSICAL_BASE_URL) = some "" ∧
    WHIMSICAL_BASE_URL ≠ WHIMSICAL_BASE_URL ++ WHIMSICAL_BASE_URL ∧
    strStartsWith (WHIMSICAL_BASE_URL ++ WHIMSICAL_BASE_URL) WHIMSICAL_BASE_URL = true ∧
    some "" ≠ some WHIMSICAL_BASE_URL ∧
    getItemName "not-a-whimsical-url" = none := by
  decide

/-- Claim C5 (amended): `getItemName` is a pure deterministic function;
on an identifier in which the base URL occurs exactly once, as a prefix
(equivalently the split yields `["", suffix]`), it returns the path
suffix after the base URL and is injective across such identifiers; on
any other input it silently returns `undefined` (`none`) — the source
contains no defensive check and never fails fatally. -/
theorem getItemName_suffix_injective (u1 u2 s1 s2 : String)
    (e1 : u1 = WHIMSICAL_BASE_URL ++ s1)
    (h1 : jsSplit u1 WHIMSICAL_BASE_URL = ["", s1])
    (e2 : u2 = WHIMSICAL_BASE_URL ++ s2)
    (h2 : jsSplit u2 WHIMSICAL_BASE_URL = ["", s2]) :
    getItemName u1 = some s1 ∧
    (getItemName u1 = getItemName u2 → u1 = u2) := by
  constructor
  · simp [getItemName, h1]
  · intro h
    simp [getItemName, h1, h2] at h
    rw [e1, e2, h]

/-- Witness for the amended claim C5 at two concrete identifiers. -/
theorem getItemName_suffix_injective_witness :
    getItemName (WHIMSICAL_BASE_URL ++ "folder-a") = some "folder-a" ∧
    (getItemName (WHIMSICAL_BASE_URL ++ "folder-a") =
        getItemName (WHIMSICAL_BASE_URL ++ "folder-b") →
      WHIMSICAL_BASE_URL ++ "folder-a" = WHIMSICAL_BASE_URL ++ "folder-b") :=
  getItemName_suffix_injective (WHIMSICAL_BASE_URL ++ "folder-a")
    (WHIMSICAL_BASE_URL ++ "folder-b") "folder-a" "folder-b"
    rfl (by decide) rfl (by decide)

/-! ### Claim C7: the blob-response listener -/

/-- Claim C7 is false as stated (counterexample): with the click
succeeding and the page emitting only a non-blob response, the promise
of `clickAndWaitForImageBlob` never settles and the listener is never
removed — the wait for the blob response is not bounded by any
timeout. -/
theorem clickAndWait_no_timeout_cex :
    clickAndWaitForImageBlob true
        [{ url := "https://whimsical.com/api/other", ok := true, buffer := "x" }] =
      (Settled.pending, false) := by
  decide

/-- Claim C7 (amended): the single-shot listener is removed exactly on
the paths where the wait concludes — a blob response (success or
failure status) or a failed click; but no timeout exists: whenever the
click succeeds and no blob response arrives, the promise stays pending
forever and the listener stays installed. -/
theorem clickAndWait_listener_iff_settled (clickOk : Bool)
    (responses : List HttpResponse) :
    ((clickAndWaitForImageBlob clickOk responses).2 = true ↔
      (clickAndWaitForImageBlob clickOk responses).1 ≠ Settled.pending) ∧
    (clickOk = true → firstBlob responses = none →
      clickAndWaitForImageBlob clickOk responses = (Settled.pending, false)) := by
  unfold clickAndWaitForImageBlob
  cases clickOk with
  | false => simp
  | true =>
    rcases h : firstBlob responses with _ | r
    · simp [h]
    · cases hok : r.ok <;> simp [h, hok]

/-- Witness for the amended claim C7: a successful click with no blob
response at all leaves the promise pending and the listener installed. -/
theorem clickAndWait_listener_iff_settled_witness :
    clickAndWaitForImageBlob true [] = (Settled.pending, false) :=
  (clickAndWait_listener_iff_settled true []).2 rfl rfl

/-! ### Claim C8: closing the share control -/

/-- A blob response with a failure status. -/
def badBlob : HttpResponse :=
  { url := "blob:" ++ WHIMSICAL_BASE_URL ++ "abc", ok := false, buffer := "" }

/-- A blob response with a success status. -/
def goodBlob : HttpResponse :=
  { url := "blob:" ++ WHIMSICAL_BASE_URL ++ "abc", ok := true, buffer := "img" }

/-- Claim C8 is false as stated (counterexample): when the blob
response reports a failure status the capture fails, and the share
control — opened by the first click — is never clicked a second time:
on the failure outcome the open-control state leaks. -/
theorem getImageBlob_not_closed_cex :
    (getImageBlob true true [badBlob]).1 = Settled.rejected ∧
    (getImageBlob true true [badBlob]).2.count UIEv.clickShare = 1 := by
  decide

/-- Claim C8 (amended): the share control is closed again only on the
success outcome of the image capture; when the capture fails (or never
settles) the exception propagates (or the wait hangs) before the
closing click, so the share button is clicked at most once and the
control is left open. -/
theorem getImageBlob_close_on_success (share copy : Bool)
    (responses : List HttpResponse) :
    (∀ buf, (getImageBlob share copy responses).1 = Settled.resolved buf →
      (getImageBlob share copy responses).2.count UIEv.clickShare = 2) ∧
    (((getImageBlob share copy responses).1 = Settled.rejected ∨
        (getImageBlob share copy responses).1 = Settled.pending) →
      (getImageBlob share copy responses).2.count UIEv.clickShare ≤ 1) := by
  unfold getImageBlob
  cases share with
  | false => simp
  | true =>
    rcases h : (clickAndWaitForImageBlob copy responses).1 with _ | buf | _ <;>
      cases copy <;> simp [h]

/-- Witness for the amended claim C8: on a successful capture the share
button is clicked exactly twice (opened, then closed). -/
theorem getImageBlob_close_on_success_witness :
    (getImageBlob true true [goodBlob]).2.count UIEv.clickShare = 2 :=
  (getImageBlob_close_on_success true true [goodBlob]).1 "img" (by decide)

/-! ### Claim C10: the bare-name short-circuit -/

/-- Claim C10: a child whose bare Local Name is present in the parent
folder's local directory listing is unconditionally treated as a
Folder — the `||` in `downloadUrls` short-circuits, so the remote
classification probe is never issued — and the engine recurses into it,
even when the remote item is actually a Document
(`R.isFolder itemUrl = false`). -/
theorem processItem_local_name_shortcircuit (R : Remote) (fuel : Nat)
    (itemUrl : String) (dirFiles : List String) (downloadPath : String)
    (fileTypes : List FileType) (s : St)
    (hmem : dirIncludesName dirFiles (getItemName itemUrl) = true)
    (_hdoc : R.isFolder itemUrl = false) :
    processItem R fuel itemUrl dirFiles downloadPath fileTypes s =
      navigateToFolder R fuel itemUrl downloadPath fileTypes s := by
  simp [processItem, processItemGo, hmem]

/-- Witness for claim C10 at a concrete remote whose item is a
Document while a local entry with its bare name exists. -/
theorem processItem_local_name_shortcircuit_witness :
    processItem R2 1 urlD ["doc-d"] "downloads" [FileType.svg] s0 =
      navigateToFolder R2 1 urlD "downloads" [FileType.svg] s0 :=
  processItem_local_name_shortcircuit R2 1 urlD ["doc-d"] "downloads"
    [FileType.svg] s0 (by decide) (by decide)

/-! ### Claim C9: empty documents -/

/-- Claim C9: an item that reaches classification and shows no
canvas-surface marker (an EmptyDocument) produces no file write and no
counter increment — the engine logs and skips it. -/
theorem processItem_empty_document_skipped (R : Remote) (fuel : Nat)
    (itemUrl : String) (dirFiles : List String) (downloadPath : String)
    (fileTypes : List FileType) (s : St)
    (hname : dirIncludesName dirFiles (getItemName itemUrl) = false)
    (hfold : R.isFolder itemUrl = false)
    (hcanvas : R.hasCanvas itemUrl = false) :
    (processItem R fuel itemUrl dirFiles downloadPath fileTypes s).written = s.written ∧
    (processItem R fuel itemUrl dirFiles downloadPath fileTypes s).itemsDownloaded =
      s.itemsDownloaded := by
  unfold processItem processItemGo
  simp only [hname, Bool.false_eq_true, if_false, checkItemIsFolder_fst, hfold,
    checkItemHasCanvas_fst, hcanvas]
  split
  · exact ⟨checkItemIsFolder_written R itemUrl s, checkItemIsFolder_itemsDownloaded R itemUrl s⟩
  · constructor
    · rw [checkItemHasCanvas_written, checkItemIsFolder_written]
    · rw [checkItemHasCanvas_itemsDownloaded, checkItemIsFolder_itemsDownloaded]

/-- Witness for claim C9 at a concrete canvas-less document. -/
theorem processItem_empty_document_skipped_witness :
    (processItem R4 0 urlD [] "downloads" [FileType.svg] s0).written = s0.written ∧
    (processItem R4 0 urlD [] "downloads" [FileType.svg] s0).itemsDownloaded =
      s0.itemsDownloaded :=
  processItem_empty_document_skipped R4 0 urlD [] "downloads" [FileType.svg] s0
    (by decide) (by decide) (by decide)

/-! ### Claim C2: format-complete children are still probed -/

/-- Claim C2 is false as stated (counterexample): for a child whose
Local Name satisfies the format-completion rule — `doc-d.svg` and
`doc-d.png` both exist and the requested set is {svg, png} — the engine
still interacts with the remote service: it navigates to the child and
issues the folder-classification probe. -/
theorem formatComplete_still_probed_cex :
    Ev.probeFolder urlD ∈
      (processItem R2 0 urlD ["doc-d.svg", "doc-d.png"] "downloads"
        [FileType.svg, FileType.png] s0).events ∧
    Ev.navigate urlD ∈
      (processItem R2 0 urlD ["doc-d.svg", "doc-d.png"] "downloads"
        [FileType.svg, FileType.png] s0).events := by
  decide

/-- Claim C2 (amended): for a child (not matched by bare name) whose
target file exists for every requested format and whose remote page is
not a folder, the engine still performs the folder-classification probe
— navigating there if needed — but nothing else: the resulting state is
exactly the post-probe state, with no canvas probe, no export attempt,
no file write and no counter change. -/
theorem processItem_formatComplete_probe_only (R : Remote) (fuel : Nat)
    (itemUrl : String) (dirFiles : List String) (downloadPath : String)
    (fileTypes : List FileType) (s : St)
    (hname : dirIncludesName dirFiles (getItemName itemUrl) = false)
    (hfold : R.isFolder itemUrl = false)
    (hall : ∀ ft ∈ fileTypes,
      dirFiles.contains (nameStr (getItemName itemUrl) ++ "." ++ ft.ext) = true) :
    processItem R fuel itemUrl dirFiles downloadPath fileTypes s =
      (checkItemIsFolder R itemUrl s).2 ∧
    (processItem R fuel itemUrl dirFiles downloadPath fileTypes s).written = s.written ∧
    (processItem R fuel itemUrl dirFiles downloadPath fileTypes s).itemsDownloaded =
      s.itemsDownloaded := by
  have hp : pendingFileTypes fileTypes dirFiles (getItemName itemUrl) = [] := by
    rw [pendingFileTypes, List.filter_eq_nil_iff]
    intro ft hf
    have h := hall ft hf
    simp at h ⊢
    exact h
  have hbody : processItem R fuel itemUrl dirFiles downloadPath fileTypes s =
      (checkItemIsFolder R itemUrl s).2 := by
    simp [processItem, processItemGo, hname, hfold, hp, checkItemIsFolder_fst]
  refine ⟨hbody, ?_, ?_⟩
  · rw [hbody, checkItemIsFolder_written]
  · rw [hbody, checkItemIsFolder_itemsDownloaded]

/-- Witness for the amended claim C2 at a concrete fully-exported
document. -/
theorem processItem_formatComplete_probe_only_witness :
    processItem R2 0 urlD ["doc-d.svg", "doc-d.png"] "downloads"
        [FileType.svg, FileType.png] s0 =
      (checkItemIsFolder R2 urlD s0).2 ∧
    (processItem R2 0 urlD ["doc-d.svg", "doc-d.png"] "downloads"
        [FileType.svg, FileType.png] s0).written = s0.written ∧
    (processItem R2 0 urlD ["doc-d.svg", "doc-d.png"] "downloads"
        [FileType.svg, FileType.png] s0).itemsDownloaded = s0.itemsDownloaded :=
  processItem_formatComplete_probe_only R2 0 urlD ["doc-d.svg", "doc-d.png"]
    "downloads" [FileType.svg, FileType.png] s0 (by decide) (by decide) (by decide)

/-! ### Characterization of one document-branch iteration -/

/-- Every event added by one loop iteration on an item that is not
taken as a folder is a navigation, one of the two classification
probes, or an export attempt for a pending format. -/
theorem processItem_doc_events (R : Remote) (fuel : Nat) (itemUrl : String)
    (dirFiles : List String) (downloadPath : String) (fileTypes : List FileType)
    (s : St)
    (hname : dirIncludesName dirFiles (getItemName itemUrl) = false)
    (hfold : R.isFolder itemUrl = false) :
    ∀ a ∈ (processItem R fuel itemUrl dirFiles downloadPath fileTypes s).events,
      a ∈ s.events ∨ (∃ url, a = Ev.navigate url) ∨
        a = Ev.probeFolder itemUrl ∨ a = Ev.probeCanvas itemUrl ∨
        ∃ g ∈ pendingFileTypes fileTypes dirFiles (getItemName itemUrl),
          a = Ev.exportAttempt itemUrl g := by
  intro a ha
  unfold processItem processItemGo at ha
  simp only [hname, Bool.false_eq_true, if_false, checkItemIsFolder_fst, hfold] at ha
  split at ha
  · rcases mem_checkItemIsFolder_events a R itemUrl s ha with h | h | h
    · exact Or.inl h
    · exact Or.inr (Or.inl ⟨_, h⟩)
    · exact Or.inr (Or.inr (Or.inl h))
  · split at ha
    · have ha2 : a ∈ (exportFiles R itemUrl downloadPath
          (nameStr (getItemName itemUrl))
          (pendingFileTypes fileTypes dirFiles (getItemName itemUrl))
          (checkItemHasCanvas R itemUrl (checkItemIsFolder R itemUrl s).2).2).1.events := by
        split at ha
        · exact ha
        · exact ha
      rcases exportFiles_events_subset R itemUrl downloadPath _ _ _ a ha2 with h | h | h
      · rcases mem_checkItemHasCanvas_events a R itemUrl _ h with h2 | h2 | h2
        · rcases mem_checkItemIsFolder_events a R itemUrl s h2 with h3 | h3 | h3
          · exact Or.inl h3
          · exact Or.inr (Or.inl ⟨_, h3⟩)
          · exact Or.inr (Or.inr (Or.inl h3))
        · exact Or.inr (Or.inl ⟨_, h2⟩)
        · exact Or.inr (Or.inr (Or.inr (Or.inl h2)))
      · exact Or.inr (Or.inl h)
      · exact Or.inr (Or.inr (Or.inr (Or.inr h)))
    · rcases mem_checkItemHasCanvas_events a R itemUrl _ ha with h2 | h2 | h2
      · rcases mem_checkItemIsFolder_events a R itemUrl s h2 with h3 | h3 | h3
        · exact Or.inl h3
        · exact Or.inr (Or.inl ⟨_, h3⟩)
        · exact Or.inr (Or.inr (Or.inl h3))
      · exact Or.inr (Or.inl ⟨_, h2⟩)
      · exact Or.inr (Or.inr (Or.inr (Or.inl h2)))

/-- Every file written by one loop iteration on an item that is not
taken as a folder targets the current directory, the item's Local
Name, and a pending format. -/
theorem processItem_doc_written (R : Remote) (fuel : Nat) (itemUrl : String)
    (dirFiles : List String) (downloadPath : String) (fileTypes : List FileType)
    (s : St)
    (hname : dirIncludesName dirFiles (getItemName itemUrl) = false)
    (hfold : R.isFolder itemUrl = false) :
    ∀ w ∈ (processItem R fuel itemUrl dirFiles downloadPath fileTypes s).written,
      w ∈ s.written ∨
        (w.dir = downloadPath ∧ w.name = nameStr (getItemName itemUrl) ∧
          w.ft ∈ pendingFileTypes fileTypes dirFiles (getItemName itemUrl)) := by
  intro w hw
  unfold processItem processItemGo at hw
  simp only [hname, Bool.false_eq_true, if_false, checkItemIsFolder_fst, hfold] at hw
  split at hw
  · rw [checkItemIsFolder_written] at hw
    exact Or.inl hw
  · split at hw
    · have hw2 : w ∈ (exportFiles R itemUrl downloadPath
          (nameStr (getItemName itemUrl))
          (pendingFileTypes fileTypes dirFiles (getItemName itemUrl))
          (checkItemHasCanvas R itemUrl (checkItemIsFolder R itemUrl s).2).2).1.written := by
        split at hw
        · exact hw
        · exact hw
      rcases exportFiles_written_subset R itemUrl downloadPath _ _ _ w hw2 with h | h
      · rw [checkItemHasCanvas_written, checkItemIsFolder_written] at h
        exact Or.inl h
      · exact Or.inr h
    · rw [checkItemHasCanvas_written, checkItemIsFolder_written] at hw
      exact Or.inl hw

/-! ### Claim C3: resume-safety of pre-existing format files -/

/-- Claim C3: for a Document (not matched by bare name, not a remote
folder) and a requested format whose file `LocalName.format` already
exists in the directory listing, that format is filtered out of the
pending set: no export for it is attempted, and no write targeting its
file ever happens — and more generally every export this iteration
attempts is for a format whose file was missing. -/
theorem processItem_existing_format_preserved (R : Remote) (fuel : Nat)
    (itemUrl : String) (dirFiles : List String) (downloadPath : String)
    (fileTypes : List FileType) (s : St) (ft : FileType)
    (hname : dirIncludesName dirFiles (getItemName itemUrl) = false)
    (hfold : R.isFolder itemUrl = false)
    (hpresent : dirFiles.contains (nameStr (getItemName itemUrl) ++ "." ++ ft.ext) = true) :
    (∀ g : FileType,
      Ev.exportAttempt itemUrl g ∈
          (processItem R fuel itemUrl dirFiles downloadPath fileTypes s).events →
        Ev.exportAttempt itemUrl g ∈ s.events ∨
          dirFiles.contains (nameStr (getItemName itemUrl) ++ "." ++ g.ext) = false) ∧
    (∀ w ∈ (processItem R fuel itemUrl dirFiles downloadPath fileTypes s).written,
      w ∈ s.written ∨
        ¬(w.dir = downloadPath ∧ w.name = nameStr (getItemName itemUrl) ∧ w.ft = ft)) := by
  constructor
  · intro g hg
    rcases processItem_doc_events R fuel itemUrl dirFiles downloadPath fileTypes s
        hname hfold _ hg with h | h | h | h | h
    · exact Or.inl h
    · rcases h with ⟨url, h⟩
      exact Ev.noConfusion h
    · exact Ev.noConfusion h
    · exact Ev.noConfusion h
    · rcases h with ⟨g2, hg2, heq⟩
      injection heq with h1 h2
      subst h2
      right
      simp only [pendingFileTypes, List.mem_filter] at hg2
      have h3 := hg2.2
      simpa using h3
  · intro w hw
    rcases processItem_doc_written R fuel itemUrl dirFiles downloadPath fileTypes s
        hname hfold _ hw with h | h
    · exact Or.inl h
    · right
      rintro ⟨hd, hn, hf⟩
      have h2 := h.2.2
      rw [hf] at h2
      simp only [pendingFileTypes, List.mem_filter] at h2
      have h3 := h2.2
      rw [hpresent] at h3
      simp at h3

/-- Witness for claim C3: with `doc-d.svg` present and {svg, png}
requested, the PNG attempt the run makes is for a format whose file
was missing. -/
theorem processItem_existing_format_preserved_witness :
    Ev.exportAttempt urlD FileType.png ∈ s0.events ∨
      List.contains ["doc-d.svg"]
        (nameStr (getItemName urlD) ++ "." ++ FileType.png.ext) = false :=
  (processItem_existing_format_preserved R2 0 urlD ["doc-d.svg"] "downloads"
    [FileType.svg, FileType.png] s0 FileType.svg (by decide) (by decide)
    (by decide)).1 FileType.png (by decide)

/-! ### Claim C1: counter semantics -/

/-- Claim C1 is false as stated (counterexample): for a document whose
pending formats are {svg, png}, the SVG export succeeds — the file
`downloads/doc-d.svg` is written — but the subsequent PNG export throws,
so the `catch` skips `itemsDownloaded++` and the Traversal Counter stays
0 although one of the document's pending format exports succeeded. -/
theorem downloadCount_partial_success_cex :
    (processItem R1 0 urlD [] "downloads" [FileType.svg, FileType.png] s0).written =
      [⟨"downloads", "doc-d", FileType.svg, "SVG"⟩] ∧
    (processItem R1 0 urlD [] "downloads" [FileType.svg, FileType.png] s0).itemsDownloaded =
      0 := by
  decide

/-- Counter formula for one loop iteration on an item that is not
taken as a folder: the counter increments by one exactly when the
pending set is non-empty, the canvas probe succeeds, and every pending
export succeeds. -/
theorem processItem_count_formula (R : Remote) (fuel : Nat)
    (itemUrl : String) (dirFiles : List String) (downloadPath : String)
    (fileTypes : List FileType) (s : St)
    (hname : dirIncludesName dirFiles (getItemName itemUrl) = false)
    (hfold : R.isFolder itemUrl = false) :
    (processItem R fuel itemUrl dirFiles downloadPath fileTypes s).itemsDownloaded =
      s.itemsDownloaded +
        (if pendingFileTypes fileTypes dirFiles (getItemName itemUrl) ≠ [] ∧
            R.hasCanvas itemUrl = true ∧
            ∀ g ∈ pendingFileTypes fileTypes dirFiles (getItemName itemUrl),
              (R.content itemUrl g).isSome then 1 else 0) := by
  unfold processItem processItemGo
  simp only [hname, Bool.false_eq_true, if_false, checkItemIsFolder_fst, hfold,
    checkItemHasCanvas_fst]
  split
  case isTrue hpend =>
    rw [checkItemIsFolder_itemsDownloaded, if_neg]
    · simp
    · rintro ⟨hne, _⟩
      exact hne hpend
  case isFalse hpend =>
    split
    case isTrue hcv =>
      have h1 : (exportFiles R itemUrl downloadPath (nameStr (getItemName itemUrl))
          (pendingFileTypes fileTypes dirFiles (getItemName itemUrl))
          (checkItemHasCanvas R itemUrl (checkItemIsFolder R itemUrl s).2).2).1.itemsDownloaded
          = s.itemsDownloaded := by
        rw [exportFiles_itemsDownloaded, checkItemHasCanvas_itemsDownloaded,
          checkItemIsFolder_itemsDownloaded]
      split
      case isTrue hsucc =>
        rw [if_pos ⟨hpend, hcv, (exportFiles_success _ _ _ _ _ _).mp hsucc⟩]
        simpa using h1
      case isFalse hsucc =>
        rw [if_neg]
        · simpa using h1
        · rintro ⟨-, -, hall2⟩
          exact hsucc ((exportFiles_success _ _ _ _ _ _).mpr hall2)
    case isFalse hcv =>
      rw [checkItemHasCanvas_itemsDownloaded, checkItemIsFolder_itemsDownloaded, if_neg]
      · simp
      · rintro ⟨-, hc, -⟩
        exact hcv hc

/-- Claim C1 (amended): for a Document the Traversal Counter is
incremented by exactly 1 when the pending set is non-empty, the
document has a canvas, and every pending format's export succeeds;
otherwise — in particular when any pending export fails, even after
earlier formats were produced — it is not incremented at all.  It is
never incremented more than once per document. -/
theorem processItem_count_iff_all_succeed (R : Remote) (fuel : Nat)
    (itemUrl : String) (dirFiles : List String) (downloadPath : String)
    (fileTypes : List FileType) (s : St)
    (hname : dirIncludesName dirFiles (getItemName itemUrl) = false)
    (hfold : R.isFolder itemUrl = false) :
    (processItem R fuel itemUrl dirFiles downloadPath fileTypes s).itemsDownloaded =
      s.itemsDownloaded +
        (if pendingFileTypes fileTypes dirFiles (getItemName itemUrl) ≠ [] ∧
            R.hasCanvas itemUrl = true ∧
            ∀ g ∈ pendingFileTypes fileTypes dirFiles (getItemName itemUrl),
              (R.content itemUrl g).isSome then 1 else 0) :=
  processItem_count_formula R fuel itemUrl dirFiles downloadPath fileTypes s
    hname hfold

/-- Witness for the amended claim C1 at a concrete document whose
single pending export succeeds. -/
theorem processItem_count_iff_all_succeed_witness :
    (processItem R2 0 urlD [] "downloads" [FileType.svg] s0).itemsDownloaded =
      s0.itemsDownloaded +
        (if pendingFileTypes [FileType.svg] [] (getItemName urlD) ≠ [] ∧
            R2.hasCanvas urlD = true ∧
            ∀ g ∈ pendingFileTypes [FileType.svg] [] (getItemName urlD),
              (R2.content urlD g).isSome then 1 else 0) :=
  processItem_count_iff_all_succeed R2 0 urlD [] "downloads" [FileType.svg] s0
    (by decide) (by decide)

/-! ### Claim C6: failure containment of the export loop -/

/-- When the prefix `p1` of formats succeeds and format `ft` then
fails, the export loop attempts exactly the formats of `p1` and `ft`:
no event for any later format is emitted. -/
theorem exportFiles_stop_events (R : Remote) (itemUrl dir name : String)
    (p1 : List FileType) (ft : FileType) (p2 : List FileType) (s : St)
    (h1 : ∀ f ∈ p1, (R.content itemUrl f).isSome)
    (hft : R.content itemUrl ft = none) :
    ∀ a ∈ (exportFiles R itemUrl dir name (p1 ++ ft :: p2) s).1.events,
      a ∈ s.events ∨ (∃ url, a = Ev.navigate url) ∨
        ∃ f ∈ p1 ++ [ft], a = Ev.exportAttempt itemUrl f := by
  induction p1 generalizing s with
  | nil =>
    intro a ha
    simp only [List.nil_append, exportFiles, getItemContent_fst, hft] at ha
    have ha2 : a ∈ (getItemContent R itemUrl ft s).2.events := ha
    rcases mem_getItemContent_events a R itemUrl ft s ha2 with h | h | h
    · exact Or.inl h
    · exact Or.inr (Or.inl h)
    · exact Or.inr (Or.inr ⟨ft, by simp, h⟩)
  | cons f p1 ih =>
    intro a ha
    have hf : (R.content itemUrl f).isSome := h1 f (List.mem_cons_self _ _)
    rcases hc : R.content itemUrl f with _ | c
    · rw [hc] at hf
      simp at hf
    · simp only [List.cons_append, exportFiles, getItemContent_fst, hc] at ha
      rcases ih _ (fun g hg => h1 g (List.mem_cons_of_mem _ hg)) a ha with h | h | h
      · have h2 : a ∈ (getItemContent R itemUrl f s).2.events := h
        rcases mem_getItemContent_events a R itemUrl f s h2 with h3 | h3 | h3
        · exact Or.inl h3
        · exact Or.inr (Or.inl h3)
        · exact Or.inr (Or.inr ⟨f, by simp, h3⟩)
      · exact Or.inr (Or.inl h)
      · rcases h with ⟨g, hg, hag⟩
        refine Or.inr (Or.inr ⟨g, ?_, hag⟩)
        simp only [List.cons_append, List.mem_cons]
        exact Or.inr hg

/-- When the prefix `p1` succeeds and `ft` then fails, the export loop
writes exactly the files of the successful prefix `p1`. -/
theorem exportFiles_stop_written (R : Remote) (itemUrl dir name : String)
    (p1 : List FileType) (ft : FileType) (p2 : List FileType) (s : St)
    (h1 : ∀ f ∈ p1, (R.content itemUrl f).isSome)
    (hft : R.content itemUrl ft = none) :
    ∀ w ∈ (exportFiles R itemUrl dir name (p1 ++ ft :: p2) s).1.written,
      w ∈ s.written ∨ (w.dir = dir ∧ w.name = name ∧ w.ft ∈ p1) := by
  induction p1 generalizing s with
  | nil =>
    intro w hw
    simp only [List.nil_append, exportFiles, getItemContent_fst, hft] at hw
    have hw2 : w ∈ (getItemContent R itemUrl ft s).2.written := hw
    rw [getItemContent_written] at hw2
    exact Or.inl hw2
  | cons f p1 ih =>
    intro w hw
    have hf : (R.content itemUrl f).isSome := h1 f (List.mem_cons_self _ _)
    rcases hc : R.content itemUrl f with _ | c
    · rw [hc] at hf
      simp at hf
    · simp only [List.cons_append, exportFiles, getItemContent_fst, hc] at hw
      rcases ih _ (fun g hg => h1 g (List.mem_cons_of_mem _ hg)) w hw with h | h
      · have h2 : w ∈ (getItemContent R itemUrl f s).2.written ++
            [⟨dir, name, f, c⟩] := h
        rw [getItemContent_written] at h2
        rcases List.mem_append.mp h2 with h3 | h3
        · exact Or.inl h3
        · rw [List.mem_singleton] at h3
          subst h3
          exact Or.inr ⟨rfl, rfl, List.mem_cons_self _ _⟩
      · exact Or.inr ⟨h.1, h.2.1, List.mem_cons_of_mem _ h.2.2⟩

/-- Claim C6 is false as stated (counterexample): for document `doc-d`
with pending formats {svg, png}, the SVG export fails while the PNG
export would succeed (`R3.content` returns bytes for it) — yet the run
never attempts the PNG export for `doc-d`: the `catch` wraps the whole
format loop, so the failure skips all remaining formats of that
document, not only the failing one.  (The run does continue with the
sibling `doc-e`, whose SVG file is written.) -/
theorem exportFailure_skips_remaining_cex :
    Ev.exportAttempt urlD FileType.png ∉
      (downloadUrls R3 0 [urlD, urlE] [] "downloads"
        [FileType.svg, FileType.png] s0).events ∧
    (R3.content urlD FileType.png).isSome = true ∧
    (⟨"downloads", "doc-e", FileType.svg, "BYTES-svg"⟩ : FileWrite) ∈
      (downloadUrls R3 0 [urlD, urlE] [] "downloads"
        [FileType.svg, FileType.png] s0).written := by
  decide

/-- Claim C6 (amended): a failure inside a Format Exporter invocation
is caught and contained, but it skips the failing format *and every
later pending format* of that document, and it forfeits the counter
increment; it never aborts the run — the loop continues with the next
sibling.  Precisely: when the pending formats are `p1 ++ ft :: p2`,
every format of `p1` succeeds and `ft` fails, the iteration leaves the
counter unchanged, attempts only the formats of `p1 ++ [ft]`, writes
only files of formats in `p1`, and the enclosing loop proceeds to the
remaining items. -/
theorem processItem_export_failure_contained (R : Remote) (fuel : Nat)
    (itemUrl : String) (dirFiles : List String) (downloadPath : String)
    (fileTypes : List FileType) (s : St)
    (p1 : List FileType) (ft : FileType) (p2 : List FileType)
    (hname : dirIncludesName dirFiles (getItemName itemUrl) = false)
    (hfold : R.isFolder itemUrl = false)
    (hpend : pendingFileTypes fileTypes dirFiles (getItemName itemUrl) = p1 ++ ft :: p2)
    (h1 : ∀ f ∈ p1, (R.content itemUrl f).isSome)
    (hft : R.content itemUrl ft = none) :
    (processItem R fuel itemUrl dirFiles downloadPath fileTypes s).itemsDownloaded =
        s.itemsDownloaded ∧
    (∀ a ∈ (processItem R fuel itemUrl dirFiles downloadPath fileTypes s).events,
      a ∈ s.events ∨ (∃ url, a = Ev.navigate url) ∨
        a = Ev.probeFolder itemUrl ∨ a = Ev.probeCanvas itemUrl ∨
        ∃ f ∈ p1 ++ [ft], a = Ev.exportAttempt itemUrl f) ∧
    (∀ w ∈ (processItem R fuel itemUrl dirFiles downloadPath fileTypes s).written,
      w ∈ s.written ∨
        (w.dir = downloadPath ∧ w.name = nameStr (getItemName itemUrl) ∧ w.ft ∈ p1)) ∧
    (∀ rest : List String,
      downloadUrls R fuel (itemUrl :: rest) dirFiles downloadPath fileTypes s =
        downloadUrls R fuel rest dirFiles downloadPath fileTypes
          (processItem R fuel itemUrl dirFiles downloadPath fileTypes s)) := by
  have hsucc : (exportFiles R itemUrl downloadPath (nameStr (getItemName itemUrl))
      (pendingFileTypes fileTypes dirFiles (getItemName itemUrl))
      (checkItemHasCanvas R itemUrl (checkItemIsFolder R itemUrl s).2).2).2 = false := by
    rw [Bool.eq_false_iff]
    intro hcontra
    have hall := (exportFiles_success _ _ _ _ _ _).mp hcontra
    have hmem : ft ∈ pendingFileTypes fileTypes dirFiles (getItemName itemUrl) := by
      rw [hpend]
      simp
    have := hall ft hmem
    rw [hft] at this
    simp at this
  refine ⟨?_, ?_, ?_, fun rest => rfl⟩
  · rw [processItem_count_formula R fuel itemUrl dirFiles downloadPath
      fileTypes s hname hfold, if_neg]
    · simp
    · rintro ⟨-, -, hall⟩
      have hmem : ft ∈ pendingFileTypes fileTypes dirFiles (getItemName itemUrl) := by
        rw [hpend]
        simp
      have := hall ft hmem
      rw [hft] at this
      simp at this
  · intro a ha
    unfold processItem processItemGo at ha
    simp only [hname, Bool.false_eq_true, if_false, checkItemIsFolder_fst, hfold] at ha
    split at ha
    · rcases mem_checkItemIsFolder_events a R itemUrl s ha with h | h | h
      · exact Or.inl h
      · exact Or.inr (Or.inl ⟨_, h⟩)
      · exact Or.inr (Or.inr (Or.inl h))
    · split at ha
      · have ha2 : a ∈ (exportFiles R itemUrl downloadPath
            (nameStr (getItemName itemUrl))
            (pendingFileTypes fileTypes dirFiles (getItemName itemUrl))
            (checkItemHasCanvas R itemUrl (checkItemIsFolder R itemUrl s).2).2).1.events := by
          split at ha
          · exact ha
          · exact ha
        rw [hpend] at ha2
        rcases exportFiles_stop_events R itemUrl downloadPath
            (nameStr (getItemName itemUrl)) p1 ft p2 _ h1 hft a ha2 with h | h | h
        · rcases mem_checkItemHasCanvas_events a R itemUrl _ h with h2 | h2 | h2
          · rcases mem_checkItemIsFolder_events a R itemUrl s h2 with h3 | h3 | h3
            · exact Or.inl h3
            · exact Or.inr (Or.inl ⟨_, h3⟩)
            · exact Or.inr (Or.inr (Or.inl h3))
          · exact Or.inr (Or.inl ⟨_, h2⟩)
          · exact Or.inr (Or.inr (Or.inr (Or.inl h2)))
        · exact Or.inr (Or.inl h)
        · exact Or.inr (Or.inr (Or.inr (Or.inr h)))
      · rcases mem_checkItemHasCanvas_events a R itemUrl _ ha with h2 | h2 | h2
        · rcases mem_checkItemIsFolder_events a R itemUrl s h2 with h3 | h3 | h3
          · exact Or.inl h3
          · exact Or.inr (Or.inl ⟨_, h3⟩)
          · exact Or.inr (Or.inr (Or.inl h3))
        · exact Or.inr (Or.inl ⟨_, h2⟩)
        · exact Or.inr (Or.inr (Or.inr (Or.inl h2)))
  · intro w hw
    unfold processItem processItemGo at hw
    simp only [hname, Bool.false_eq_true, if_false, checkItemIsFolder_fst, hfold] at hw
    split at hw
    · rw [checkItemIsFolder_written] at hw
      exact Or.inl hw
    · split at hw
      · have hw2 : w ∈ (exportFiles R itemUrl downloadPath
            (nameStr (getItemName itemUrl))
            (pendingFileTypes fileTypes dirFiles (getItemName itemUrl))
            (checkItemHasCanvas R itemUrl (checkItemIsFolder R itemUrl s).2).2).1.written := by
          split at hw
          · exact hw
          · exact hw
        rw [hpend] at hw2
        rcases exportFiles_stop_written R itemUrl downloadPath
            (nameStr (getItemName itemUrl)) p1 ft p2 _ h1 hft w hw2 with h | h
        · rw [checkItemHasCanvas_written, checkItemIsFolder_written] at h
          exact Or.inl h
        · exact Or.inr h
      · rw [checkItemHasCanvas_written, checkItemIsFolder_written] at hw
        exact Or.inl hw

/-- Witness for the amended claim C6: the `doc-d` run whose SVG export
succeeds and whose PNG export fails leaves the counter unchanged. -/
theorem processItem_export_failure_contained_witness :
    (processItem R1 0 urlD [] "downloads" [FileType.svg, FileType.png] s0).itemsDownloaded =
      s0.itemsDownloaded :=
  (processItem_export_failure_contained R1 0 urlD [] "downloads"
    [FileType.svg, FileType.png] s0 [FileType.svg] FileType.png []
    (by decide) (by decide) (by decide) (by decide) (by decide)).1
